import Mathlib

/-
  Shallow embedding of the Sunique Assemble Display backend (server.js).
  The server is an Express app that resolves and downloads one spreadsheet
  from SharePoint via Microsoft Graph.  We model every network-facing
  function as a pure function over an oracle environment
  (HttpRequest -> Response) that also returns the ordered list of requests
  it issued, so that temporal claims about which endpoints are called can
  be stated and proved.
-/

namespace AssembleDisplay

/-- JS template interpolation of a possibly undefined value: undefined
    renders as the literal string undefined. -/
def jstr : Option String → String
| none => "undefined"
| some s => s

/-- JS truthiness of a process.env value: undefined and the empty string
    are falsy, every other string is truthy. -/
def truthy : Option String → Bool
| none => false
| some s => !s.isEmpty

/-- The environment variables read by server.js (process.env.SHAREPOINT_*).
    There is no variable for the legacy file identifier: server.js never
    reads one. -/
structure EnvVars where
  tenantId : Option String := none
  clientId : Option String := none
  clientSecret : Option String := none
  hostname : Option String := none
  siteName : Option String := none
deriving DecidableEq

/-- The CONFIG object of server.js lines 14-21. -/
structure Config where
  tenantId : Option String
  clientId : Option String
  clientSecret : Option String
  hostname : Option String
  siteName : String
  fileGuid : String
deriving DecidableEq

/-- The literal GUID written into CONFIG at server.js line 20. -/
def hardcodedFileGuid : String := "90B92EAC-A9BD-48EC-9881-F6DC23DD5B4F"

/-- Construction of CONFIG from the environment (server.js lines 14-21):
    the first four fields are raw env reads, siteName gets a default via
    the JS or-operator, and fileGuid is the hardcoded literal. -/
def mkConfig (ev : EnvVars) : Config :=
  { tenantId := ev.tenantId
    clientId := ev.clientId
    clientSecret := ev.clientSecret
    hostname := ev.hostname
    siteName := if truthy ev.siteName then jstr ev.siteName else "SuniqueKnowledgeBase"
    fileGuid := hardcodedFileGuid }

/-- The ordered list of missing required variables collected by
    validateConfig (server.js lines 24-34). -/
def missingVars (cfg : Config) : List String :=
  (if truthy cfg.tenantId then [] else ["SHAREPOINT_TENANT_ID"]) ++
  (if truthy cfg.clientId then [] else ["SHAREPOINT_CLIENT_ID"]) ++
  (if truthy cfg.clientSecret then [] else ["SHAREPOINT_CLIENT_SECRET"]) ++
  (if truthy cfg.hostname then [] else ["SHAREPOINT_HOSTNAME"])

/-- validateConfig (server.js lines 24-34): throws when any required
    variable is missing, with the joined list in the message. -/
def validateConfig (cfg : Config) : Except String Unit :=
  if (missingVars cfg).isEmpty then Except.ok ()
  else Except.error ("Missing required environment variables: " ++
    String.intercalate ", " (missingVars cfg))

/-- The startup block (server.js lines 307-316): validateConfig runs
    before the listener is installed.  It takes no network environment:
    startup performs no network call. -/
def startup (ev : EnvVars) : Except String Unit :=
  validateConfig (mkConfig ev)

/-- One item of a Graph search response (data.value entries):
    the code reads item.id and item.parentReference?.driveId, the latter
    being possibly absent. -/
structure SearchItem where
  id : String
  name : String := ""
  parentDriveId : Option String := none
deriving DecidableEq

/-- One drive of a Graph drives listing (data.value entries). -/
structure DriveInfo where
  id : String
  name : String := ""
deriving DecidableEq

/-- A duck-typed HTTP response: the JS code reads from the parsed JSON
    exactly the fields a given call site needs, so we carry all of them. -/
structure Response where
  ok : Bool
  status : Nat := 200
  textBody : String := ""
  accessToken : String := ""
  siteId : String := ""
  siteName : String := ""
  siteDisplayName : String := ""
  searchItems : List SearchItem := []
  drives : List DriveInfo := []
deriving DecidableEq

/-- An outgoing HTTP request as built by the code: method, URL, the
    Authorization and Accept and Content-Type headers, and the
    URLSearchParams body as ordered key-value pairs. -/
structure HttpRequest where
  method : String := "GET"
  url : String
  authBearer : Option String := none
  contentType : Option String := none
  accept : Option String := none
  params : List (String × String) := []
deriving DecidableEq

/-- The network oracle: what the upstream services answer to each request. -/
def Env : Type := HttpRequest → Response

/-- Uppercase hexadecimal digit for a value below 16. -/
def hexDigit (n : Nat) : Char :=
  if n < 10 then Char.ofNat (48 + n) else Char.ofNat (55 + n)

/-- UTF-8 byte sequence of one code point, as numbers. -/
def utf8Bytes (c : Char) : List Nat :=
  let n := c.toNat
  if n < 128 then [n]
  else if n < 2048 then [192 + n / 64, 128 + n % 64]
  else if n < 65536 then [224 + n / 4096, 128 + (n / 64) % 64, 128 + n % 64]
  else [240 + n / 262144, 128 + (n / 4096) % 64, 128 + (n / 64) % 64, 128 + n % 64]

/-- Characters that JS encodeURIComponent leaves unescaped. -/
def isUnreservedURIChar (c : Char) : Bool :=
  c.isAlphanum || c ∈ ['-', '_', '.', '!', '~', '*', '\x27', '(', ')']

/-- JS encodeURIComponent: percent-encode every UTF-8 byte of every
    reserved character, uppercase hex. -/
def encodeURIComponent (s : String) : String :=
  s.toList.foldl (fun acc c =>
    if isUnreservedURIChar c then acc.push c
    else (utf8Bytes c).foldl (fun a b =>
      ((a.push '%').push (hexDigit (b / 16))).push (hexDigit (b % 16))) acc) ""

/-- The searched file name, hardcoded at server.js line 151. -/
def fileName : String := "Assembly Schedule (New Version).xlsx"

/-- The fixed spreadsheet MIME type set on success (server.js line 289). -/
def xlsxMime : String :=
  "application/vnd.openxmlformats-officedocument.spreadsheetml.sheet"

/-- The token request of getAccessToken (server.js lines 36-52): generic
    Graph audience scope. -/
def tokenRequest (cfg : Config) : HttpRequest :=
  { method := "POST"
    url := "https://login.microsoftonline.com/" ++ jstr cfg.tenantId ++ "/oauth2/v2.0/token"
    contentType := some "application/x-www-form-urlencoded"
    params := [("client_id", jstr cfg.clientId),
               ("client_secret", jstr cfg.clientSecret),
               ("scope", "https://graph.microsoft.com/.default"),
               ("grant_type", "client_credentials")] }

/-- getAccessToken (server.js lines 36-61): one POST to the token
    endpoint; non-success throws with status and raw body in the message. -/
def getAccessToken (cfg : Config) (env : Env) :
    Except String String × List HttpRequest :=
  let req := tokenRequest cfg
  let r := env req
  if r.ok then (Except.ok r.accessToken, [req])
  else (Except.error ("Authentication failed: " ++ toString r.status ++ " - " ++ r.textBody),
        [req])

/-- A resolved site as pushed by getAllSiteIds (server.js line 85). -/
structure SiteInfo where
  id : String
  name : String
  displayName : String
deriving DecidableEq

/-- Probe URL of a named site candidate (server.js lines 69-70). -/
def siteProbeUrl (cfg : Config) (name : String) : String :=
  "https://graph.microsoft.com/v1.0/sites/" ++ jstr cfg.hostname ++ ":/sites/" ++ name

/-- Probe URL of the bare-hostname root site (server.js line 71). -/
def rootProbeUrl (cfg : Config) : String :=
  "https://graph.microsoft.com/v1.0/sites/" ++ jstr cfg.hostname

/-- The fixed candidate list of getAllSiteIds (server.js lines 68-72),
    in the order the loop tries them. -/
def sitesToTry (cfg : Config) : List (String × String) :=
  [(cfg.siteName, siteProbeUrl cfg cfg.siteName),
   ("SuniqueKnowledgeBase", siteProbeUrl cfg "SuniqueKnowledgeBase"),
   ("root", rootProbeUrl cfg)]

/-- A bearer-authorized GET used by every Graph call in the file. -/
def siteRequest (token url : String) : HttpRequest :=
  { url := url, authBearer := some ("Bearer " ++ token) }

/-- What one probe of getAllSiteIds contributes: the SiteInfo when the
    lookup succeeds, nothing otherwise. -/
def resolvedOf (token : String) (env : Env) (c : String × String) : Option SiteInfo :=
  let r := env (siteRequest token c.2)
  if r.ok then some { id := r.siteId, name := r.siteName, displayName := r.siteDisplayName }
  else none

/-- The loop of getAllSiteIds (server.js lines 74-89): probe every
    candidate, accumulate the successes, record every request. -/
def probeSites (token : String) (env : Env) :
    List (String × String) → List SiteInfo × List HttpRequest
| [] => ([], [])
| c :: cs =>
  let req := siteRequest token c.2
  let r := env req
  let rest := probeSites token env cs
  if r.ok then
    ({ id := r.siteId, name := r.siteName, displayName := r.siteDisplayName } :: rest.1,
     req :: rest.2)
  else (rest.1, req :: rest.2)

/-- getAllSiteIds (server.js lines 64-96): throws only when zero
    candidates resolved. -/
def getAllSiteIds (cfg : Config) (token : String) (env : Env) :
    Except String (List SiteInfo) × List HttpRequest :=
  let (sites, reqs) := probeSites token env (sitesToTry cfg)
  if sites.isEmpty then (Except.error "No accessible SharePoint sites found", reqs)
  else (Except.ok sites, reqs)

/-- The SharePoint-scoped token request of getFileByGuid (server.js
    lines 104-117): tenant-host audience, not the Graph audience. -/
def spTokenRequest (cfg : Config) : HttpRequest :=
  { method := "POST"
    url := "https://login.microsoftonline.com/" ++ jstr cfg.tenantId ++ "/oauth2/v2.0/token"
    contentType := some "application/x-www-form-urlencoded"
    params := [("client_id", jstr cfg.clientId),
               ("client_secret", jstr cfg.clientSecret),
               ("scope", "https://" ++ jstr cfg.hostname ++ "/.default"),
               ("grant_type", "client_credentials")] }

/-- The legacy site-name candidates of getFileByGuid (server.js line 101). -/
def guidSites (cfg : Config) : List String :=
  ["SuniqueKnowledgeBase", cfg.siteName, "sccr"]

/-- One legacy GetFileById request (server.js lines 128-136). -/
def guidRequest (cfg : Config) (spToken siteName : String) : HttpRequest :=
  { url := "https://" ++ jstr cfg.hostname ++ "/sites/" ++ siteName ++
      "/_api/web/GetFileById(guid\x27" ++ cfg.fileGuid ++ "\x27)/$value"
    authBearer := some ("Bearer " ++ spToken)
    accept := some "application/json;odata=verbose" }

/-- The loop of getFileByGuid over legacy site names (server.js
    lines 127-144): first success returns the buffer, failures are
    logged and skipped. -/
def tryGuidSites (cfg : Config) (spToken : String) (env : Env) :
    List String → Option String × List HttpRequest
| [] => (none, [])
| s :: ss =>
  let req := guidRequest cfg spToken s
  let r := env req
  if r.ok then (some r.textBody, [req])
  else
    let rest := tryGuidSites cfg spToken env ss
    (rest.1, req :: rest.2)

/-- getFileByGuid (server.js lines 99-147), Tier A of the cascade: it
    never throws; a failed legacy token exchange or exhausted candidate
    list yields null. -/
def getFileByGuid (cfg : Config) (env : Env) : Option String × List HttpRequest :=
  let treq := spTokenRequest cfg
  let tr := env treq
  if tr.ok then
    let rest := tryGuidSites cfg tr.accessToken env (guidSites cfg)
    (rest.1, treq :: rest.2)
  else (none, [treq])

/-- The default-drive search request of Tier B (server.js line 158). -/
def defaultSearchRequest (token siteId : String) : HttpRequest :=
  { url := "https://graph.microsoft.com/v1.0/sites/" ++ siteId ++
      "/drive/root/search(q=\x27" ++ encodeURIComponent fileName ++ "\x27)"
    authBearer := some ("Bearer " ++ token) }

/-- The drives listing request of Tier C (server.js line 182). -/
def drivesRequest (token siteId : String) : HttpRequest :=
  { url := "https://graph.microsoft.com/v1.0/sites/" ++ siteId ++ "/drives"
    authBearer := some ("Bearer " ++ token) }

/-- The per-drive search request of Tier C (server.js line 195). -/
def driveSearchRequest (token driveId : String) : HttpRequest :=
  { url := "https://graph.microsoft.com/v1.0/drives/" ++ driveId ++
      "/root/search(q=\x27" ++ encodeURIComponent fileName ++ "\x27)"
    authBearer := some ("Bearer " ++ token) }

/-- The resolution artifact returned by findFileInAllSites: in Tier B the
    drive id comes from the optional parentReference and may be absent. -/
structure FileLocation where
  driveId : Option String
  itemId : String
deriving DecidableEq

/-- The inner drive loop of Tier C (server.js lines 193-215): search each
    drive, return on the first non-empty result, skip failures silently. -/
def searchDrives (token : String) (env : Env) :
    List DriveInfo → Option FileLocation × List HttpRequest
| [] => (none, [])
| d :: ds =>
  let req := driveSearchRequest token d.id
  let r := env req
  if r.ok then
    match r.searchItems with
    | it :: _ => (some { driveId := some d.id, itemId := it.id }, [req])
    | [] =>
      let rest := searchDrives token env ds
      (rest.1, req :: rest.2)
  else
    let rest := searchDrives token env ds
    (rest.1, req :: rest.2)

/-- The per-site body of findFileInAllSites (server.js lines 153-218):
    Tier B default-drive search; on failure or empty result fall through
    to Tier C, listing the drives and searching each. -/
def searchSite (token : String) (site : SiteInfo) (env : Env) :
    Option FileLocation × List HttpRequest :=
  let breq := defaultSearchRequest token site.id
  let br := env breq
  match br.ok, br.searchItems with
  | true, it :: _ => (some { driveId := it.parentDriveId, itemId := it.id }, [breq])
  | _, _ =>
    let dreq := drivesRequest token site.id
    let dr := env dreq
    if dr.ok then
      let rest := searchDrives token env dr.drives
      (rest.1, breq :: dreq :: rest.2)
    else (none, [breq, dreq])

/-- The site loop of findFileInAllSites: first located handle wins. -/
def searchSites (token : String) (env : Env) :
    List SiteInfo → Option FileLocation × List HttpRequest
| [] => (none, [])
| s :: ss =>
  match searchSite token s env with
  | (some loc, tr) => (some loc, tr)
  | (none, tr) =>
    let rest := searchSites token env ss
    (rest.1, tr ++ rest.2)

/-- The error message thrown at server.js line 221. -/
def notFoundMsg : String :=
  "File \x22" ++ fileName ++ "\x22 not found in any accessible SharePoint sites"

/-- findFileInAllSites (server.js lines 150-222), Tiers B and C across
    all resolved sites; throws only on total exhaustion. -/
def findFileInAllSites (token : String) (sites : List SiteInfo) (env : Env) :
    Except String FileLocation × List HttpRequest :=
  match searchSites token env sites with
  | (some loc, tr) => (Except.ok loc, tr)
  | (none, tr) => (Except.error notFoundMsg, tr)

/-- The content request of downloadFile (server.js line 226); an absent
    drive id interpolates as the literal undefined. -/
def downloadRequest (token : String) (driveId : Option String) (itemId : String) :
    HttpRequest :=
  { url := "https://graph.microsoft.com/v1.0/drives/" ++ jstr driveId ++
      "/items/" ++ itemId ++ "/content"
    authBearer := some ("Bearer " ++ token) }

/-- downloadFile (server.js lines 225-240): one GET; non-success throws
    with status and raw body; success returns the buffered payload. -/
def downloadFile (token : String) (driveId : Option String) (itemId : String)
    (env : Env) : Except String String × List HttpRequest :=
  let req := downloadRequest token driveId itemId
  let r := env req
  if r.ok then (Except.ok r.textBody, [req])
  else (Except.error ("Failed to download file: " ++ toString r.status ++ " - " ++ r.textBody),
        [req])

/-- Outcome of one handling of GET /api/download-schedule. -/
inductive HandlerResult where
| sent (contentType : String) (body : String)
| failed (status : Nat) (error : String)
deriving DecidableEq

/-- The /api/download-schedule handler (server.js lines 255-304):
    authenticate, resolve sites, try Tier A; when Tier A yields nothing,
    locate via Tiers B and C and download by handle; any thrown error is
    caught and returned as a 500 with the error message. -/
def downloadSchedule (cfg : Config) (env : Env) : HandlerResult × List HttpRequest :=
  match getAccessToken cfg env with
  | (Except.error msg, tr1) => (HandlerResult.failed 500 msg, tr1)
  | (Except.ok token, tr1) =>
    match getAllSiteIds cfg token env with
    | (Except.error msg, tr2) => (HandlerResult.failed 500 msg, tr1 ++ tr2)
    | (Except.ok sites, tr2) =>
      match getFileByGuid cfg env with
      | (some buf, tr3) => (HandlerResult.sent xlsxMime buf, tr1 ++ tr2 ++ tr3)
      | (none, tr3) =>
        match findFileInAllSites token sites env with
        | (Except.error msg, tr4) => (HandlerResult.failed 500 msg, tr1 ++ tr2 ++ tr3 ++ tr4)
        | (Except.ok loc, tr4) =>
          match downloadFile token loc.driveId loc.itemId env with
          | (Except.error msg, tr5) =>
            (HandlerResult.failed 500 msg, tr1 ++ tr2 ++ tr3 ++ tr4 ++ tr5)
          | (Except.ok buf, tr5) =>
            (HandlerResult.sent xlsxMime buf, tr1 ++ tr2 ++ tr3 ++ tr4 ++ tr5)

deriving instance DecidableEq for Except

/-
  Helper lemmas shared by several claim theorems.
-/

/-- getAccessToken always issues exactly the one token request. -/
theorem getAccessToken_trace (cfg : Config) (env : Env) :
    (getAccessToken cfg env).2 = [tokenRequest cfg] := by
  unfold getAccessToken
  by_cases h : (env (tokenRequest cfg)).ok = true <;> simp [h]

/-- downloadFile always issues exactly the one content request. -/
theorem downloadFile_trace (token : String) (driveId : Option String)
    (itemId : String) (env : Env) :
    (downloadFile token driveId itemId env).2 = [downloadRequest token driveId itemId] := by
  unfold downloadFile
  by_cases h : (env (downloadRequest token driveId itemId)).ok = true <;> simp [h]

/-- findFileInAllSites records exactly the requests of its site loop. -/
theorem findFileInAllSites_trace (token : String) (sites : List SiteInfo) (env : Env) :
    (findFileInAllSites token sites env).2 = (searchSites token env sites).2 := by
  unfold findFileInAllSites
  rcases h : searchSites token env sites with ⟨o, tr⟩
  cases o <;> simp

/-- Every request issued by the legacy candidate loop is a GetFileById
    request for one of the candidate names. -/
theorem tryGuidSites_mem (cfg : Config) (spToken : String) (env : Env)
    (l : List String) (r : HttpRequest) (hr : r ∈ (tryGuidSites cfg spToken env l).2) :
    ∃ s ∈ l, r = guidRequest cfg spToken s := by
  induction l with
  | nil => simp [tryGuidSites] at hr
  | cons s ss ih =>
    unfold tryGuidSites at hr
    by_cases h : (env (guidRequest cfg spToken s)).ok = true
    · simp only [h, if_true] at hr
      simp at hr
      exact ⟨s, by simp, hr⟩
    · simp only [h] at hr
      simp at hr
      rcases hr with hr | hr
      · exact ⟨s, by simp, hr⟩
      · obtain ⟨x, hx, hxr⟩ := ih hr
        exact ⟨x, by simp [hx], hxr⟩

/-- Every request issued by Tier A is either the legacy token exchange or
    a GetFileById request for a legacy candidate name. -/
theorem getFileByGuid_trace_mem (cfg : Config) (env : Env) (r : HttpRequest)
    (hr : r ∈ (getFileByGuid cfg env).2) :
    r = spTokenRequest cfg ∨
      ∃ s ∈ guidSites cfg,
        r = guidRequest cfg (env (spTokenRequest cfg)).accessToken s := by
  unfold getFileByGuid at hr
  by_cases h : (env (spTokenRequest cfg)).ok = true
  · simp only [h, if_true] at hr
    simp at hr
    rcases hr with hr | hr
    · exact Or.inl hr
    · exact Or.inr (tryGuidSites_mem cfg _ env (guidSites cfg) r hr)
  · simp only [h] at hr
    simp at hr
    exact Or.inl hr

/-- probeSites returns exactly the resolved candidates in probe order and
    records one request per candidate, in order. -/
theorem probeSites_eq (token : String) (env : Env) (l : List (String × String)) :
    probeSites token env l =
      (l.filterMap (resolvedOf token env), l.map (fun c => siteRequest token c.2)) := by
  induction l with
  | nil => rfl
  | cons c cs ih =>
    simp only [probeSites, ih, List.filterMap_cons, List.map_cons, resolvedOf]
    by_cases h : (env (siteRequest token c.2)).ok = true <;> simp [h]

/-- searchSites yields no location exactly when every site yields none. -/
theorem searchSites_fst_eq_none_iff (token : String) (env : Env) (l : List SiteInfo) :
    (searchSites token env l).1 = none ↔ ∀ s ∈ l, (searchSite token s env).1 = none := by
  induction l with
  | nil => simp [searchSites]
  | cons s ss ih =>
    rcases h : searchSite token s env with ⟨fst, tr⟩
    cases fst with
    | some loc => simp [searchSites, h]
    | none => simp [searchSites, h, ih]

/-- Inversion for a successful downloadFile call. -/
theorem downloadFile_ok_inv (token : String) (driveId : Option String)
    (itemId : String) (env : Env) (buf : String) (tr : List HttpRequest)
    (h : downloadFile token driveId itemId env = (Except.ok buf, tr)) :
    (env (downloadRequest token driveId itemId)).ok = true ∧
    buf = (env (downloadRequest token driveId itemId)).textBody ∧
    tr = [downloadRequest token driveId itemId] := by
  unfold downloadFile at h
  by_cases hok : (env (downloadRequest token driveId itemId)).ok = true
  · simp only [hok, if_true] at h
    obtain ⟨h1, h2⟩ := Prod.mk.injEq .. ▸ h
    exact ⟨hok, (Except.ok.injEq .. ▸ h1).symm, h2.symm⟩
  · simp only [hok] at h
    simp at h

/-- Handler equation for the Tier A success path. -/
theorem downloadSchedule_tierA_eq (cfg : Config) (env : Env) (token : String)
    (sites : List SiteInfo) (buf : String) (tr1 tr2 tr3 : List HttpRequest)
    (h1 : getAccessToken cfg env = (Except.ok token, tr1))
    (h2 : getAllSiteIds cfg token env = (Except.ok sites, tr2))
    (h3 : getFileByGuid cfg env = (some buf, tr3)) :
    downloadSchedule cfg env = (HandlerResult.sent xlsxMime buf, tr1 ++ tr2 ++ tr3) := by
  simp [downloadSchedule, h1, h2, h3]

/-- Handler equation for the located-then-downloaded path. -/
theorem downloadSchedule_download_eq (cfg : Config) (env : Env) (token : String)
    (sites : List SiteInfo) (loc : FileLocation) (buf : String)
    (tr1 tr2 tr3 tr4 tr5 : List HttpRequest)
    (h1 : getAccessToken cfg env = (Except.ok token, tr1))
    (h2 : getAllSiteIds cfg token env = (Except.ok sites, tr2))
    (h3 : getFileByGuid cfg env = (none, tr3))
    (h4 : findFileInAllSites token sites env = (Except.ok loc, tr4))
    (h5 : downloadFile token loc.driveId loc.itemId env = (Except.ok buf, tr5)) :
    downloadSchedule cfg env =
      (HandlerResult.sent xlsxMime buf, tr1 ++ tr2 ++ tr3 ++ tr4 ++ tr5) := by
  simp [downloadSchedule, h1, h2, h3, h4, h5]

/-- Handler equation when authentication fails. -/
theorem downloadSchedule_authErr_eq (cfg : Config) (env : Env) (msg : String)
    (tr1 : List HttpRequest)
    (h1 : getAccessToken cfg env = (Except.error msg, tr1)) :
    downloadSchedule cfg env = (HandlerResult.failed 500 msg, tr1) := by
  simp [downloadSchedule, h1]

/-- Handler equation when site resolution fails. -/
theorem downloadSchedule_sitesErr_eq (cfg : Config) (env : Env) (token msg : String)
    (tr1 tr2 : List HttpRequest)
    (h1 : getAccessToken cfg env = (Except.ok token, tr1))
    (h2 : getAllSiteIds cfg token env = (Except.error msg, tr2)) :
    downloadSchedule cfg env = (HandlerResult.failed 500 msg, tr1 ++ tr2) := by
  simp [downloadSchedule, h1, h2]

/-- Handler equation when Tier A yields nothing and the locate cascade
    exhausts. -/
theorem downloadSchedule_locErr_eq (cfg : Config) (env : Env) (token msg : String)
    (sites : List SiteInfo) (tr1 tr2 tr3 tr4 : List HttpRequest)
    (h1 : getAccessToken cfg env = (Except.ok token, tr1))
    (h2 : getAllSiteIds cfg token env = (Except.ok sites, tr2))
    (h3 : getFileByGuid cfg env = (none, tr3))
    (h4 : findFileInAllSites token sites env = (Except.error msg, tr4)) :
    downloadSchedule cfg env = (HandlerResult.failed 500 msg, tr1 ++ tr2 ++ tr3 ++ tr4) := by
  simp [downloadSchedule, h1, h2, h3, h4]

/-- Handler equation when the final download fails. -/
theorem downloadSchedule_dlErr_eq (cfg : Config) (env : Env) (token msg : String)
    (sites : List SiteInfo) (loc : FileLocation) (tr1 tr2 tr3 tr4 tr5 : List HttpRequest)
    (h1 : getAccessToken cfg env = (Except.ok token, tr1))
    (h2 : getAllSiteIds cfg token env = (Except.ok sites, tr2))
    (h3 : getFileByGuid cfg env = (none, tr3))
    (h4 : findFileInAllSites token sites env = (Except.ok loc, tr4))
    (h5 : downloadFile token loc.driveId loc.itemId env = (Except.error msg, tr5)) :
    downloadSchedule cfg env =
      (HandlerResult.failed 500 msg, tr1 ++ tr2 ++ tr3 ++ tr4 ++ tr5) := by
  simp [downloadSchedule, h1, h2, h3, h4, h5]

/-- Full inversion of a run that terminates in SENT: either Tier A
    supplied the body, or the body is verbatim the download response of
    the located handle and the download request is in the trace. -/
theorem downloadSchedule_sent_inv (cfg : Config) (env : Env) (ct body : String)
    (tr : List HttpRequest)
    (h : downloadSchedule cfg env = (HandlerResult.sent ct body, tr)) :
    ct = xlsxMime ∧
    ((getFileByGuid cfg env).1 = some body ∨
      ((getFileByGuid cfg env).1 = none ∧
        ∃ token sites loc,
          (getAccessToken cfg env).1 = Except.ok token ∧
          (getAllSiteIds cfg token env).1 = Except.ok sites ∧
          (findFileInAllSites token sites env).1 = Except.ok loc ∧
          (env (downloadRequest token loc.driveId loc.itemId)).ok = true ∧
          body = (env (downloadRequest token loc.driveId loc.itemId)).textBody ∧
          downloadRequest token loc.driveId loc.itemId ∈ tr)) := by
  rcases e1 : getAccessToken cfg env with ⟨r1, t1⟩
  cases r1 with
  | error msg =>
    rw [downloadSchedule_authErr_eq cfg env msg t1 e1] at h
    simp at h
  | ok token =>
    rcases e2 : getAllSiteIds cfg token env with ⟨r2, t2⟩
    cases r2 with
    | error msg =>
      rw [downloadSchedule_sitesErr_eq cfg env token msg t1 t2 e1 e2] at h
      simp at h
    | ok sites =>
      rcases e3 : getFileByGuid cfg env with ⟨g, t3⟩
      cases g with
      | some buf =>
        rw [downloadSchedule_tierA_eq cfg env token sites buf t1 t2 t3 e1 e2 e3] at h
        injection h with hp ht
        injection hp with hct hbody
        exact ⟨hct.symm, Or.inl (congrArg some hbody)⟩
      | none =>
        rcases e4 : findFileInAllSites token sites env with ⟨r4, t4⟩
        cases r4 with
        | error msg =>
          rw [downloadSchedule_locErr_eq cfg env token msg sites t1 t2 t3 t4 e1 e2 e3 e4] at h
          simp at h
        | ok loc =>
          rcases e5 : downloadFile token loc.driveId loc.itemId env with ⟨r5, t5⟩
          cases r5 with
          | error msg =>
            rw [downloadSchedule_dlErr_eq cfg env token msg sites loc t1 t2 t3 t4 t5
              e1 e2 e3 e4 e5] at h
            simp at h
          | ok buf =>
            rw [downloadSchedule_download_eq cfg env token sites loc buf t1 t2 t3 t4 t5
              e1 e2 e3 e4 e5] at h
            injection h with hp htr
            injection hp with hct hbody
            obtain ⟨hok, hbuf, ht5⟩ := downloadFile_ok_inv _ _ _ _ _ _ e5
            refine ⟨hct.symm, Or.inr ⟨rfl, token, sites, loc,
              rfl, by simp [e2], by simp [e4], hok, ?_, ?_⟩⟩
            · rw [← hbody]
              exact hbuf
            · rw [← htr, ht5]
              simp

/-
  Claim theorems.
-/

/-- C3: the Site Resolver (getAllSiteIds) probes every candidate in the
    order supplied without stopping at the first hit (the request trace
    is one probe per candidate in list order), returns exactly the
    candidates that resolved, in probe order, and fails with the
    not-found error exactly when zero candidates resolved. -/
theorem siteResolver_probes_all_and_errors_iff_none (cfg : Config) (token : String)
    (env : Env) :
    (getAllSiteIds cfg token env).2 =
      (sitesToTry cfg).map (fun c => siteRequest token c.2) ∧
    (((sitesToTry cfg).filterMap (resolvedOf token env)).isEmpty = true ∧
        (getAllSiteIds cfg token env).1 =
          Except.error "No accessible SharePoint sites found" ∨
      ((sitesToTry cfg).filterMap (resolvedOf token env)).isEmpty = false ∧
        (getAllSiteIds cfg token env).1 =
          Except.ok ((sitesToTry cfg).filterMap (resolvedOf token env))) := by
  unfold getAllSiteIds
  rw [probeSites_eq]
  by_cases h : ((sitesToTry cfg).filterMap (resolvedOf token env)).isEmpty = true
  · exact ⟨by simp [h], Or.inl ⟨h, by simp [h]⟩⟩
  · refine ⟨by simp [h], Or.inr ⟨by simpa using h, by simp [h]⟩⟩

/-- Membership in the contribution of one required variable to the
    missing list. -/
theorem mem_ite_nil_singleton (b : Bool) (x name : String) :
    (name ∈ if b = true then ([] : List String) else [x]) ↔ name = x ∧ b = false := by
  cases b <;> simp

/-- A required variable is missing in the sense of the spec. -/
def requiredMissing (ev : EnvVars) (name : String) : Prop :=
  (name = "SHAREPOINT_TENANT_ID" ∧ truthy ev.tenantId = false) ∨
  (name = "SHAREPOINT_CLIENT_ID" ∧ truthy ev.clientId = false) ∨
  (name = "SHAREPOINT_CLIENT_SECRET" ∧ truthy ev.clientSecret = false) ∨
  (name = "SHAREPOINT_HOSTNAME" ∧ truthy ev.hostname = false)

/-- C7: startup fails (before any network call: startup takes no network
    environment at all) exactly when a required variable is missing, the
    error message lists the missing variables, and the reported list
    contains precisely the variables that are missing. -/
theorem startup_reports_exact_missing_set (ev : EnvVars) :
    ((missingVars (mkConfig ev)).isEmpty = true → startup ev = Except.ok ()) ∧
    ((missingVars (mkConfig ev)).isEmpty = false → startup ev =
      Except.error ("Missing required environment variables: " ++
        String.intercalate ", " (missingVars (mkConfig ev)))) ∧
    (∀ name, name ∈ missingVars (mkConfig ev) ↔ requiredMissing ev name) := by
  refine ⟨fun h => by simp [startup, validateConfig, h],
          fun h => by simp [startup, validateConfig, h],
          fun name => ?_⟩
  show name ∈ missingVars (mkConfig ev) ↔ requiredMissing ev name
  simp only [missingVars, mkConfig, requiredMissing, List.mem_append,
    mem_ite_nil_singleton]
  tauto

/-- C7 witness: with only the tenant id and hostname set, startup fails
    and reports exactly the client id and client secret as missing. -/
theorem startup_reports_exact_missing_set_witness :
    startup { tenantId := some "T", hostname := some "H" } =
      Except.error
        "Missing required environment variables: SHAREPOINT_CLIENT_ID, SHAREPOINT_CLIENT_SECRET" ∧
    ("SHAREPOINT_CLIENT_ID" ∈
        missingVars (mkConfig { tenantId := some "T", hostname := some "H" }) ↔
      requiredMissing { tenantId := some "T", hostname := some "H" }
        "SHAREPOINT_CLIENT_ID") := by
  refine ⟨?_, (startup_reports_exact_missing_set
    { tenantId := some "T", hostname := some "H" }).2.2 "SHAREPOINT_CLIENT_ID"⟩
  have h := (startup_reports_exact_missing_set
    { tenantId := some "T", hostname := some "H" }).2.1 (by decide)
  rw [h]
  congr 1

/-- C6: when the credential exchange answers non-success, the handler
    fails with 500, the error message carries the HTTP status and the raw
    response body, and the trace is exactly the one token request: the
    site-resolve, locate and download steps issue no network call. -/
theorem auth_failure_stops_pipeline (cfg : Config) (env : Env)
    (h : (env (tokenRequest cfg)).ok = false) :
    downloadSchedule cfg env =
      (HandlerResult.failed 500 ("Authentication failed: " ++
        toString (env (tokenRequest cfg)).status ++ " - " ++
        (env (tokenRequest cfg)).textBody),
       [tokenRequest cfg]) := by
  simp [downloadSchedule, getAccessToken, h]

/-- An environment in which every upstream call is rejected with 401. -/
def authFailEnv : Env := fun _ => { ok := false, status := 401, textBody := "denied" }

/-- A fully populated environment-variable set. -/
def evFull : EnvVars :=
  { tenantId := some "T", clientId := some "C", clientSecret := some "S",
    hostname := some "H" }

/-- The configuration built from evFull. -/
def cfgFull : Config := mkConfig evFull

/-- C6 witness: a concrete run against a rejecting token endpoint. -/
theorem auth_failure_stops_pipeline_witness :
    downloadSchedule cfgFull authFailEnv =
      (HandlerResult.failed 500 "Authentication failed: 401 - denied",
       [tokenRequest cfgFull]) := by
  rw [auth_failure_stops_pipeline cfgFull authFailEnv rfl]
  decide

/-- C2: transient failures inside the locator are swallowed, never
    surfaced: a failed legacy token exchange makes Tier A answer null
    after its single request; the search cascade raises its error exactly
    when every resolved site yielded nothing through both tiers; the only
    error the cascade can raise is the not-found message; that message
    contains the literal searched file name; and a fully exhausted run
    makes the endpoint fail with 500 carrying that message. -/
theorem locator_errors_only_on_total_exhaustion :
    (∀ cfg env, (env (spTokenRequest cfg)).ok = false →
        getFileByGuid cfg env = (none, [spTokenRequest cfg])) ∧
    (∀ (token : String) (sites : List SiteInfo) (env : Env),
        ((findFileInAllSites token sites env).1 = Except.error notFoundMsg ↔
          ∀ s ∈ sites, (searchSite token s env).1 = none)) ∧
    (∀ (token : String) (sites : List SiteInfo) (env : Env) (msg : String),
        (findFileInAllSites token sites env).1 = Except.error msg → msg = notFoundMsg) ∧
    (∃ a b, notFoundMsg = a ++ fileName ++ b) ∧
    (∀ (cfg : Config) (env : Env) (token : String) (sites : List SiteInfo),
        (getAccessToken cfg env).1 = Except.ok token →
        (getAllSiteIds cfg token env).1 = Except.ok sites →
        (getFileByGuid cfg env).1 = none →
        (findFileInAllSites token sites env).1 = Except.error notFoundMsg →
        (downloadSchedule cfg env).1 = HandlerResult.failed 500 notFoundMsg) := by
  refine ⟨?_, ?_, ?_, ⟨"File \x22", "\x22 not found in any accessible SharePoint sites", rfl⟩, ?_⟩
  · intro cfg env h
    simp [getFileByGuid, h]
  · intro token sites env
    rw [← searchSites_fst_eq_none_iff token env sites]
    unfold findFileInAllSites
    rcases h : searchSites token env sites with ⟨o, tr⟩
    cases o <;> simp
  · intro token sites env msg h
    unfold findFileInAllSites at h
    rcases hs : searchSites token env sites with ⟨o, tr⟩
    rw [hs] at h
    cases o <;> simp at h
    exact h.symm
  · intro cfg env token sites h1 h2 h3 h4
    rcases e1 : getAccessToken cfg env with ⟨r1, t1⟩
    rw [e1] at h1
    simp at h1
    subst h1
    rcases e2 : getAllSiteIds cfg token env with ⟨r2, t2⟩
    rw [e2] at h2
    simp at h2
    subst h2
    rcases e3 : getFileByGuid cfg env with ⟨g, t3⟩
    rw [e3] at h3
    simp at h3
    subst h3
    rcases e4 : findFileInAllSites token sites env with ⟨r4, t4⟩
    rw [e4] at h4
    simp at h4
    subst h4
    rw [downloadSchedule_locErr_eq cfg env token notFoundMsg sites t1 t2 t3 t4 e1 e2 e3 e4]

/-- C2 witness: with every upstream call rejected, Tier A swallows the
    failed legacy token exchange, and an empty resolved-site list makes
    the cascade raise exactly the not-found message. -/
theorem locator_errors_only_on_total_exhaustion_witness :
    getFileByGuid cfgFull authFailEnv = (none, [spTokenRequest cfgFull]) ∧
    (findFileInAllSites "tok" [] authFailEnv).1 = Except.error notFoundMsg := by
  refine ⟨locator_errors_only_on_total_exhaustion.1 cfgFull authFailEnv rfl, ?_⟩
  exact (locator_errors_only_on_total_exhaustion.2.1 "tok" [] authFailEnv).mpr (by simp)

/-- C4: when Tier A succeeds the run terminates in SENT with the Tier A
    buffer and the whole request trace consists of the authentication,
    the site probes and the Tier A requests only: Tiers B and C (the
    search and drive-listing calls of findFileInAllSites) and the
    download step contribute no request at all. -/
theorem tierA_success_skips_tierBC (cfg : Config) (env : Env) (token buf : String)
    (sites : List SiteInfo) (tr1 tr2 tr3 : List HttpRequest)
    (h1 : getAccessToken cfg env = (Except.ok token, tr1))
    (h2 : getAllSiteIds cfg token env = (Except.ok sites, tr2))
    (h3 : getFileByGuid cfg env = (some buf, tr3)) :
    downloadSchedule cfg env = (HandlerResult.sent xlsxMime buf, tr1 ++ tr2 ++ tr3) ∧
    ∀ r ∈ tr1 ++ tr2 ++ tr3,
      r = tokenRequest cfg ∨
      (∃ c ∈ sitesToTry cfg, r = siteRequest token c.2) ∨
      r = spTokenRequest cfg ∨
      ∃ s ∈ guidSites cfg,
        r = guidRequest cfg (env (spTokenRequest cfg)).accessToken s := by
  refine ⟨by simp [downloadSchedule, h1, h2, h3], ?_⟩
  have ht1 : tr1 = [tokenRequest cfg] := by
    have h := congrArg Prod.snd h1
    simp only at h
    rw [← h]
    exact getAccessToken_trace cfg env
  have ht2 : tr2 = (sitesToTry cfg).map (fun c => siteRequest token c.2) := by
    have h := congrArg Prod.snd h2
    simp only at h
    rw [← h]
    unfold getAllSiteIds
    rw [probeSites_eq]
    by_cases he : ((sitesToTry cfg).filterMap (resolvedOf token env)).isEmpty = true <;>
      simp [he]
  have ht3 : tr3 = (getFileByGuid cfg env).2 := by
    have h := congrArg Prod.snd h3
    simp only at h
    rw [← h]
  intro r hr
  rw [ht1, ht2, ht3] at hr
  simp only [List.mem_append] at hr
  rcases hr with (hr | hr) | hr
  · exact Or.inl (by simpa using hr)
  · refine Or.inr (Or.inl ?_)
    obtain ⟨c, hc, hrc⟩ := List.mem_map.mp hr
    exact ⟨c, hc, hrc.symm⟩
  · rcases getFileByGuid_trace_mem cfg env r hr with h | h
    · exact Or.inr (Or.inr (Or.inl h))
    · exact Or.inr (Or.inr (Or.inr h))

/-- The SiteInfo a successful probe response produces. -/
def siteOf (r : Response) : SiteInfo :=
  { id := r.siteId, name := r.siteName, displayName := r.siteDisplayName }

/-- A response that accepts a token exchange. -/
def okTokenResp : Response := { ok := true, accessToken := "tok" }

/-- A response that resolves a site probe. -/
def okSiteResp : Response :=
  { ok := true, siteId := "sid1", siteName := "S", siteDisplayName := "S" }

/-- An environment in which Tier A succeeds on the first legacy
    candidate: tokens are granted, the named site probe resolves, and the
    legacy GetFileById call returns the file bytes; everything else is
    rejected. -/
def tierAEnv : Env := fun req =>
  if req = tokenRequest cfgFull then okTokenResp
  else if req = spTokenRequest cfgFull then okTokenResp
  else if req = siteRequest "tok" (siteProbeUrl cfgFull "SuniqueKnowledgeBase") then okSiteResp
  else if req = guidRequest cfgFull "tok" "SuniqueKnowledgeBase" then
    { ok := true, textBody := "XLSXBYTES" }
  else authFailEnv req

/-- C4 witness: the Tier A run issues exactly the authentication, probe
    and Tier A requests, every one of which is of one of those shapes. -/
theorem tierA_success_skips_tierBC_witness :
    downloadSchedule cfgFull tierAEnv =
      (HandlerResult.sent xlsxMime "XLSXBYTES",
        (getAccessToken cfgFull tierAEnv).2 ++ (getAllSiteIds cfgFull "tok" tierAEnv).2 ++
          (getFileByGuid cfgFull tierAEnv).2) ∧
    ∀ r ∈ (getAccessToken cfgFull tierAEnv).2 ++ (getAllSiteIds cfgFull "tok" tierAEnv).2 ++
        (getFileByGuid cfgFull tierAEnv).2,
      r = tokenRequest cfgFull ∨
      (∃ c ∈ sitesToTry cfgFull, r = siteRequest "tok" c.2) ∨
      r = spTokenRequest cfgFull ∨
      ∃ s ∈ guidSites cfgFull,
        r = guidRequest cfgFull (tierAEnv (spTokenRequest cfgFull)).accessToken s :=
  tierA_success_skips_tierBC cfgFull tierAEnv "tok" "XLSXBYTES"
    [{ id := "sid1", name := "S", displayName := "S" },
     { id := "sid1", name := "S", displayName := "S" }]
    (getAccessToken cfgFull tierAEnv).2 (getAllSiteIds cfgFull "tok" tierAEnv).2
    (getFileByGuid cfgFull tierAEnv).2 (by decide) (by decide) (by decide)

/-- Structural character-list prefix test, used to state that no traced
    URL addresses the Graph drive-content endpoint. -/
def charsStart : List Char → List Char → Bool
| [], _ => true
| _ :: _, [] => false
| p :: ps, c :: cs => p = c && charsStart ps cs

/-- Whether the URL of a request starts with the given string. -/
def urlStarts (r : HttpRequest) (p : String) : Bool :=
  charsStart p.toList r.url.toList

set_option maxRecDepth 8192 in
/-- C1 counterexample: a concrete request terminates in SENT through
    Tier A; the trace of the whole run contains no request to the Graph
    drive-content endpoint, so no download of a located ResourceHandle
    ever happened. -/
theorem sent_without_download_counterexample :
    (downloadSchedule cfgFull tierAEnv).1 = HandlerResult.sent xlsxMime "XLSXBYTES" ∧
    ((downloadSchedule cfgFull tierAEnv).2.all
      (fun r => !(urlStarts r "https://graph.microsoft.com/v1.0/drives/"))) = true := by
  constructor <;> decide

/-- C1 (amended): every request that terminates in SENT in which Tier A
    did not succeed passes through the DOWNLOAD step: the locate cascade
    returned a ResourceHandle, the download request for exactly that
    handle is in the trace, and the emitted body is that download
    response. -/
theorem sent_run_downloads_when_tierA_fails (cfg : Config) (env : Env)
    (ct body : String) (tr : List HttpRequest)
    (h : downloadSchedule cfg env = (HandlerResult.sent ct body, tr))
    (hA : (getFileByGuid cfg env).1 = none) :
    ∃ token sites loc,
      (getAccessToken cfg env).1 = Except.ok token ∧
      (getAllSiteIds cfg token env).1 = Except.ok sites ∧
      (findFileInAllSites token sites env).1 = Except.ok loc ∧
      downloadRequest token loc.driveId loc.itemId ∈ tr ∧
      body = (env (downloadRequest token loc.driveId loc.itemId)).textBody := by
  obtain ⟨_, hcase⟩ := downloadSchedule_sent_inv cfg env ct body tr h
  rcases hcase with hsome | ⟨_, token, sites, loc, h1, h2, h3, _, hb, hm⟩
  · rw [hA] at hsome
    exact Option.noConfusion hsome
  · exact ⟨token, sites, loc, h1, h2, h3, hm, hb⟩

/-- An environment in which Tier A fails (the legacy token exchange is
    rejected) and the file is located by the Tier B default-drive search
    and then downloaded. -/
def downloadPathEnv : Env := fun req =>
  if req = tokenRequest cfgFull then okTokenResp
  else if req = siteRequest "tok" (siteProbeUrl cfgFull "SuniqueKnowledgeBase") then okSiteResp
  else if req = defaultSearchRequest "tok" "sid1" then
    { ok := true, searchItems := [{ id := "item1", parentDriveId := some "d1" }] }
  else if req = downloadRequest "tok" (some "d1") "item1" then
    { ok := true, textBody := "BYTES" }
  else authFailEnv req

/-- C1 witness: a concrete SENT run in which Tier A failed goes through
    the download of the located handle. -/
theorem sent_run_downloads_when_tierA_fails_witness :
    ∃ token sites loc,
      (getAccessToken cfgFull downloadPathEnv).1 = Except.ok token ∧
      (getAllSiteIds cfgFull token downloadPathEnv).1 = Except.ok sites ∧
      (findFileInAllSites token sites downloadPathEnv).1 = Except.ok loc ∧
      downloadRequest token loc.driveId loc.itemId ∈
        (downloadSchedule cfgFull downloadPathEnv).2 ∧
      "BYTES" = (downloadPathEnv (downloadRequest token loc.driveId loc.itemId)).textBody :=
  sent_run_downloads_when_tierA_fails cfgFull downloadPathEnv xlsxMime "BYTES"
    (downloadSchedule cfgFull downloadPathEnv).2 (by decide) (by decide)

/-- C5 counterexample: no legacy file identifier can be supplied through
    the environment at all: with every environment variable absent the
    constructed CONFIG still carries the hardcoded GUID, and Tier A still
    performs a network call (the legacy token exchange). -/
theorem legacy_guid_not_env_counterexample :
    (mkConfig {}).fileGuid = "90B92EAC-A9BD-48EC-9881-F6DC23DD5B4F" ∧
    (getFileByGuid (mkConfig {}) authFailEnv).2 = [spTokenRequest (mkConfig {})] := by
  constructor <;> rfl

/-- C5 (amended): the legacy file identifier is a hardcoded constant of
    CONFIG, independent of the environment, and Tier A is attempted
    unconditionally: on every run it performs at least the legacy token
    exchange network call. -/
theorem legacy_guid_hardcoded_tierA_always_runs (ev : EnvVars) (env : Env) :
    (mkConfig ev).fileGuid = hardcodedFileGuid ∧
    ∃ rest, (getFileByGuid (mkConfig ev) env).2 = spTokenRequest (mkConfig ev) :: rest := by
  refine ⟨rfl, ?_⟩
  by_cases h : (env (spTokenRequest (mkConfig ev))).ok = true
  · refine ⟨(tryGuidSites (mkConfig ev) (env (spTokenRequest (mkConfig ev))).accessToken env
      (guidSites (mkConfig ev))).2, ?_⟩
    unfold getFileByGuid
    simp [h]
  · refine ⟨[], ?_⟩
    unfold getFileByGuid
    simp [h]

/-- C8: every run that terminates in SENT carries the fixed spreadsheet
    MIME type, and the body is byte-for-byte the content supplied by the
    endpoint that served it: verbatim the download endpoint response for
    the located handle whenever the download path ran, and the Tier A
    buffer otherwise. -/
theorem sent_body_roundtrip (cfg : Config) (env : Env) (ct body : String)
    (tr : List HttpRequest)
    (h : downloadSchedule cfg env = (HandlerResult.sent ct body, tr)) :
    ct = xlsxMime ∧
    ((getFileByGuid cfg env).1 = some body ∨
      ∃ token sites loc,
        (getAccessToken cfg env).1 = Except.ok token ∧
        (getAllSiteIds cfg token env).1 = Except.ok sites ∧
        (findFileInAllSites token sites env).1 = Except.ok loc ∧
        body = (env (downloadRequest token loc.driveId loc.itemId)).textBody) := by
  obtain ⟨hct, hc⟩ := downloadSchedule_sent_inv cfg env ct body tr h
  refine ⟨hct, ?_⟩
  rcases hc with hs | ⟨_, token, sites, loc, h1, h2, h3, _, hb, _⟩
  · exact Or.inl hs
  · exact Or.inr ⟨token, sites, loc, h1, h2, h3, hb⟩

/-- C8 witness: a concrete run through the download path emits the fixed
    MIME type and byte-for-byte the download endpoint content. -/
theorem sent_body_roundtrip_witness :
    xlsxMime = xlsxMime ∧
    ((getFileByGuid cfgFull downloadPathEnv).1 = some "BYTES" ∨
      ∃ token sites loc,
        (getAccessToken cfgFull downloadPathEnv).1 = Except.ok token ∧
        (getAllSiteIds cfgFull token downloadPathEnv).1 = Except.ok sites ∧
        (findFileInAllSites token sites downloadPathEnv).1 = Except.ok loc ∧
        "BYTES" = (downloadPathEnv (downloadRequest token loc.driveId loc.itemId)).textBody) :=
  sent_body_roundtrip cfgFull downloadPathEnv xlsxMime "BYTES"
    (downloadSchedule cfgFull downloadPathEnv).2 (by decide)

/-- C9: the Site Resolver deduplicates nothing: when the configured site
    name equals the fixed fallback name, a successful probe of their
    common URL puts the same site twice at the head of the result list,
    and the site loop of the locator then searches a duplicated site a
    second time. -/
theorem siteResolver_no_dedup (cfg : Config) (token : String) (env : Env)
    (hname : cfg.siteName = "SuniqueKnowledgeBase")
    (hok : (env (siteRequest token (siteProbeUrl cfg "SuniqueKnowledgeBase"))).ok = true) :
    (∃ s rest, (getAllSiteIds cfg token env).1 = Except.ok (s :: s :: rest)) ∧
    ∀ (s : SiteInfo) (rest : List SiteInfo), (searchSite token s env).1 = none →
      (findFileInAllSites token (s :: s :: rest) env).2 =
        (searchSite token s env).2 ++ (findFileInAllSites token (s :: rest) env).2 := by
  constructor
  · by_cases hroot : (env (siteRequest token (rootProbeUrl cfg))).ok = true
    · refine ⟨siteOf (env (siteRequest token (siteProbeUrl cfg "SuniqueKnowledgeBase"))),
        [siteOf (env (siteRequest token (rootProbeUrl cfg)))], ?_⟩
      simp [getAllSiteIds, probeSites_eq, sitesToTry, hname, resolvedOf, hok, hroot, siteOf]
    · refine ⟨siteOf (env (siteRequest token (siteProbeUrl cfg "SuniqueKnowledgeBase"))),
        [], ?_⟩
      simp [getAllSiteIds, probeSites_eq, sitesToTry, hname, resolvedOf, hok, hroot, siteOf]
  · intro s rest hnone
    rw [findFileInAllSites_trace, findFileInAllSites_trace]
    rcases hs : searchSite token s env with ⟨o, tr⟩
    rw [hs] at hnone
    simp at hnone
    subst hnone
    simp [searchSites, hs]

/-- C9 witness: with the default configuration and an environment that
    resolves every probe, the first two returned sites are the same. -/
theorem siteResolver_no_dedup_witness :
    ∃ s rest,
      (getAllSiteIds cfgFull "tok" (fun _ => okSiteResp)).1 = Except.ok (s :: s :: rest) :=
  (siteResolver_no_dedup cfgFull "tok" (fun _ => okSiteResp) rfl rfl).1

/-- C10: in Tier B the container id of the returned handle is the
    optional parent reference of the first matched item: when that is
    absent the locator returns a handle with no drive id rather than
    failing, and the Content Retriever still issues the download request,
    whose URL interpolates the missing id as the literal undefined. -/
theorem tierB_handle_optional_driveId (token : String) (site : SiteInfo) (env : Env)
    (it : SearchItem) (more : List SearchItem) (rest : List SiteInfo)
    (hok : (env (defaultSearchRequest token site.id)).ok = true)
    (hitems : (env (defaultSearchRequest token site.id)).searchItems = it :: more)
    (hpd : it.parentDriveId = none) :
    (findFileInAllSites token (site :: rest) env).1 =
      Except.ok { driveId := none, itemId := it.id } ∧
    (downloadRequest token none it.id).url =
      "https://graph.microsoft.com/v1.0/drives/undefined/items/" ++ it.id ++ "/content" ∧
    (downloadFile token none it.id env).2 = [downloadRequest token none it.id] := by
  refine ⟨?_, rfl, downloadFile_trace token none it.id env⟩
  have hss : searchSite token site env =
      (some { driveId := none, itemId := it.id }, [defaultSearchRequest token site.id]) := by
    unfold searchSite
    simp only [hok, hitems, hpd]
  simp [findFileInAllSites, searchSites, hss]

/-- An environment in which the Tier B search answers one item that has
    no parent reference. -/
def noParentEnv : Env := fun req =>
  if req = defaultSearchRequest "tok" "sid1" then
    { ok := true, searchItems := [{ id := "item1" }] }
  else authFailEnv req

/-- C10 witness: a concrete Tier B hit without a parent reference yields
    a handle without a drive id, and the download request carries the
    literal undefined in its URL. -/
theorem tierB_handle_optional_driveId_witness :
    (findFileInAllSites "tok" [{ id := "sid1", name := "S", displayName := "S" }]
        noParentEnv).1 =
      Except.ok { driveId := none, itemId := "item1" } ∧
    (downloadRequest "tok" none "item1").url =
      "https://graph.microsoft.com/v1.0/drives/undefined/items/" ++ "item1" ++ "/content" ∧
    (downloadFile "tok" none "item1" noParentEnv).2 =
      [downloadRequest "tok" none "item1"] :=
  tierB_handle_optional_driveId "tok" { id := "sid1", name := "S", displayName := "S" }
    noParentEnv { id := "item1" } [] [] (by decide) (by decide) rfl

end AssembleDisplay
